import Mathlib

/-!
Shallow embedding of `globus_portal_framework/views.py`.

The request handlers (`search`, `detail_transfer`, `detail_preview`,
`logout`) are translated into pure Lean functions.  Everything the views
call that lives outside the file (the Globus SDK, the Django framework,
the portal helper modules `gsearch`/`gclients`, `urllib.parse.urlparse`)
is modelled as an oracle packaged in an `Env` record: the handlers are
parametric in the behaviour of those externals, and every call a handler
makes to an external service is recorded in an effect trace so that
claims of the form "operation X is (not) invoked" can be stated.
Logging calls are not modelled.  Python truthiness of strings/lists is
modelled explicitly (`none`/empty are falsy).
-/

namespace GPF

/-- Python truthiness of an optional string: `None` and `''` are falsy. -/
def truthy : Option String → Bool
  | none => false
  | some s => !s.isEmpty

/-- Formatting an optional value as Python does: Python renders `None` as the
string `"None"`. -/
def pyFmtOpt : Option String → String
  | none => "None"
  | some s => s

/-- Result of `urllib.parse.urlparse`: the components the views read. -/
structure ParsedUrl where
  scheme : String
  netloc : String
  path : String
  query : String
deriving Repr, DecidableEq

/-- One entry of a `remote_file_manifest`; the views only read `'url'`. -/
structure ManifestEntry where
  url : String
deriving Repr, DecidableEq

/-- The `globus_sdk.TransferAPIError` record: the views read `.code` and `.message`. -/
structure TransferAPIError where
  code : String
  message : String
deriving Repr, DecidableEq

/-- Error raised by the `preview` helper (a `PreviewException` subclass
other than `PreviewURLNotFound`); the views read `.code`. -/
structure SvcPreviewErr where
  code : String
deriving Repr, DecidableEq

/-- The `PreviewException` hierarchy as the view code uses it.
`PreviewURLNotFound` is raised by `detail_preview` itself with the
subject as argument; the `preview` helper raises other subclasses.
The hierarchy is imported from the package root (not part of the file
under study); that `PreviewURLNotFound` is a `PreviewException` is
taken from the import list and the `except PreviewException` clause
that is evidently meant to catch it. -/
inductive PreviewException where
  | urlNotFound (subject : String)
  | svc (e : SvcPreviewErr)
deriving Repr, DecidableEq

/-- The result dict of `helper_page_transfer`; the view reads `'task_id'`. -/
structure TransferTask where
  task_id : String
deriving Repr, DecidableEq

/-- A value stored in a template context dictionary. -/
inductive CtxVal where
  | subjectData (s : String)
  | manifest (m : List ManifestEntry)
  | searchRes (error : Option String) (payload : String)
  | transferErr (e : TransferAPIError)
  | previewErr (e : PreviewException)
  | previewData (d : String)
  | link (u : String)
deriving Repr, DecidableEq

/-- Python truthiness of a context value (only ever consulted on the
`'remote_file_manifest'` slot, where a list is truthy iff non-empty). -/
def CtxVal.truthyVal : CtxVal → Bool
  | .subjectData s => !s.isEmpty
  | .manifest m => !m.isEmpty
  | .searchRes _ _ => true
  | .transferErr _ => true
  | .previewErr _ => true
  | .previewData d => !d.isEmpty
  | .link u => !u.isEmpty

/-- A template context: a Python dict as an insertion-ordered list. -/
abbrev Ctx := List (String × CtxVal)

def ctxHasKey (c : Ctx) (k : String) : Bool :=
  c.any (fun p => p.1 == k)

def ctxGet (c : Ctx) (k : String) : Option CtxVal :=
  (c.find? (fun p => p.1 == k)).map (fun p => p.2)

/-- Assignment `d[k] = v` on a Python dict: overwrite in place if the key exists
(keys are unique in a dict, so replacing the first occurrence is exact),
append otherwise. -/
def ctxSet : Ctx → String → CtxVal → Ctx
  | [], k, v => [(k, v)]
  | p :: t, k, v => if p.1 == k then (k, v) :: t else p :: ctxSet t k v

/-- Facet filters parsed by `get_search_filters`; opaque to the views. -/
abbrev Filters := List (String × String)

/-- The mapping stored under `request.session['search']`. -/
structure SearchSession where
  full_query : String
  query : String
  filters : Filters
  index : String
deriving Repr, DecidableEq

/-- A value stored in the Django session. -/
inductive SessionVal where
  | searchEntry (s : SearchSession)
  | other (s : String)
deriving Repr, DecidableEq

/-- The Django session, a string-keyed dict. -/
abbrev Session := List (String × SessionVal)

def sessGet (s : Session) (k : String) : Option SessionVal :=
  (s.find? (fun p => p.1 == k)).map (fun p => p.2)

/-- Dict assignment on the session, as `ctxSet`. -/
def sessSet : Session → String → SessionVal → Session
  | [], k, v => [(k, v)]
  | p :: t, k, v => if p.1 == k then (k, v) :: t else p :: sessSet t k v

/-- The `request.user` record: the views only consult `is_authenticated`. -/
structure User where
  is_authenticated : Bool
deriving Repr, DecidableEq

/-- The parts of a Django request the views read. -/
structure Request where
  user : User
  method : String
  getParams : List (String × String)
  fullPath : String
deriving Repr, DecidableEq

/-- Lookup `request.GET.get(k)`: `none` when the query parameter is absent. -/
def Request.GETget (r : Request) (k : String) : Option String :=
  (r.getParams.find? (fun p => p.1 == k)).map (fun p => p.2)

/-- An external call made by a handler, recorded in its effect trace. -/
inductive Effect where
  | postSearchCall (index query : String) (filters : Filters) (user : User)
      (page : Option String)
  | messageError (e : String)
  | checkExistsCall (user : User) (ep path : String)
  | helperTransferCall (ep path : String)
  | previewCall (user : User) (url : String) (scope : Option String)
      (size : Nat)
  | revokeTokensCall (user : User)
  | djangoLogoutCall
deriving Repr, DecidableEq

/-- The behaviour of everything external to `views.py`, as oracles.
`check_exists` is always called with `raises=True`, so its outcome is an
`Except`; likewise `helper_page_transfer` and `preview` may raise. -/
structure Env where
  urlparse : String → ParsedUrl
  get_search_query : Request → Session → Option String
  get_search_filters : Request → Filters
  post_search : String → String → Filters → User → Option String →
      Option String × String
  get_subject : String → String → User → Ctx
  check_exists : User → String → String → Except TransferAPIError Unit
  helper_page_transfer : Request → String → String →
      Except TransferAPIError TransferTask
  get_helper_page_url : String → String → Nat → Nat → String
  reverse_detail_transfer : String → String → String
  build_absolute_uri : Request → String → String
  preview : User → String → Option String → Nat →
      Except SvcPreviewErr String
  preview_data_size : Nat
  get_template : String → String → String

/-- Python `s.replace(':', '')`: the string with every `':'` removed. -/
def removeColons (s : String) : String :=
  String.mk (s.data.filter (fun c => c ≠ ':'))

/-- A rendered response: the template name and the context handed to it. -/
structure Rendered where
  template : String
  context : Ctx
deriving Repr, DecidableEq

/-! ### The `search` view -/

/-- Outcome of the `search` view: the rendered page, the session after
the request, and the external calls made. -/
structure SearchOutcome where
  rendered : Rendered
  session : Session
  effects : List Effect
deriving Repr, DecidableEq

/-- The view `views.search`: translated line by line from the source.  `query` is
falsy when `get_search_query` yields nothing; otherwise the view calls
`post_search`, stores the search-session mapping, and registers a
user-facing error message when the result carries a truthy `'error'`. -/
def search (env : Env) (req : Request) (index : String) (sess : Session) :
    SearchOutcome :=
  let query := env.get_search_query req sess
  if truthy query then
    let q := query.getD ""
    let filters := env.get_search_filters req
    let page := req.GETget "page"
    let result := env.post_search index q filters req.user page
    let context : Ctx := [("search", CtxVal.searchRes result.1 result.2)]
    let sess' := sessSet sess "search"
      (SessionVal.searchEntry
        { full_query := (env.urlparse req.fullPath).query
          query := q
          filters := filters
          index := index })
    let effs := [Effect.postSearchCall index q filters req.user page]
    let effs := effs ++
      (if truthy result.1 then [Effect.messageError (result.1.getD "")] else [])
    { rendered := { template := env.get_template index "search.html"
                    context := context }
      session := sess'
      effects := effs }
  else
    { rendered := { template := env.get_template index "search.html"
                    context := [] }
      session := sess
      effects := [] }

/-! ### The `detail_transfer` view -/

/-- Outcome of `detail_transfer`: either a rendered page, a propagated
`ExpiredGlobusToken`, or an uncaught Python `TypeError`/`KeyError` from
malformed manifest metadata (raised when indexing a truthy
non-list value). -/
inductive TransferResult where
  | rendered (r : Rendered)
  | expiredToken
  | pythonError
deriving Repr, DecidableEq

/-- The `except globus_sdk.TransferAPIError` clause of `detail_transfer`:
store the error under `'detail_error'`, re-raise `ExpiredGlobusToken`
for an inactive token, otherwise fall through to `render`. -/
def handleTapi (env : Env) (index : String) (context : Ctx)
    (tapie : TransferAPIError) (effs : List Effect) :
    TransferResult × List Effect :=
  let context := ctxSet context "detail_error" (CtxVal.transferErr tapie)
  if tapie.code == "AuthenticationFailed" &&
      tapie.message == "Token is not active" then
    (TransferResult.expiredToken, effs)
  else
    (TransferResult.rendered
      { template := env.get_template index "detail-transfer.html"
        context := context }, effs)

/-- The tail of the `detail_transfer` try block: build this view's
absolute URL and store the helper-page link, then render. -/
def transferFinish (env : Env) (req : Request) (index subject : String)
    (context : Ctx) (effs : List Effect) : TransferResult × List Effect :=
  let this_url := env.reverse_detail_transfer index subject
  let full_url := env.build_absolute_uri req this_url
  let context := ctxSet context "helper_page_link"
    (CtxVal.link (env.get_helper_page_url full_url full_url 1 0))
  (TransferResult.rendered
    { template := env.get_template index "detail-transfer.html"
      context := context }, effs)

/-- The view `views.detail_transfer`: translated from the source.  The whole
try block is guarded by `request.user.is_authenticated`; a missing or
falsy `'remote_file_manifest'` raises a `ValueError` that is caught and
only logged; the endpoint is the manifest URL's netloc with `':'`
removed and the path its path; `check_exists` runs with `raises=True`;
only a POST starts a transfer task. -/
def detail_transfer (env : Env) (req : Request) (index subject : String) :
    TransferResult × List Effect :=
  let context := env.get_subject index subject req.user
  let renderPlain : TransferResult × List Effect :=
    (TransferResult.rendered
      { template := env.get_template index "detail-transfer.html"
        context := context }, [])
  if req.user.is_authenticated then
    match ctxGet context "remote_file_manifest" with
    | none => renderPlain
    | some (CtxVal.manifest []) => renderPlain
    | some (CtxVal.manifest (e0 :: _)) =>
      let parsed := env.urlparse e0.url
      let ep := removeColons parsed.netloc
      let path := parsed.path
      let effs := [Effect.checkExistsCall req.user ep path]
      match env.check_exists req.user ep path with
      | Except.error tapie => handleTapi env index context tapie effs
      | Except.ok _ =>
        if req.method == "POST" then
          let effs := effs ++ [Effect.helperTransferCall ep path]
          match env.helper_page_transfer req ep path with
          | Except.error tapie => handleTapi env index context tapie effs
          | Except.ok task =>
            let context := ctxSet context "transfer_link"
              (CtxVal.link ("https://www.globus.org/app/activity/" ++
                task.task_id ++ "/overview"))
            transferFinish env req index subject context effs
        else
          transferFinish env req index subject context effs
    | some v =>
      if v.truthyVal then (TransferResult.pythonError, [])
      else renderPlain
  else
    renderPlain

/-! ### The `detail_preview` view -/

/-- The preview URL built by `detail_preview`:
`'https://\x7b\x7d/\x7b\x7d'.format(endpoint, url_path)`. -/
def previewUrl (endpoint url_path : Option String) : String :=
  "https://" ++ pyFmtOpt endpoint ++ "/" ++ pyFmtOpt url_path

/-- The view `views.detail_preview`: translated from the source.  When none of
`endpoint`, `url_path` and the `'scope'` query parameter is truthy, the
view raises (and immediately catches) `PreviewURLNotFound(subject)`;
otherwise it builds the preview URL and calls the `preview` helper,
whose `PreviewException` is caught the same way.  The page is rendered
in every case. -/
def detail_preview (env : Env) (req : Request) (index subject : String)
    (endpoint url_path : Option String) : Rendered × List Effect :=
  let context := env.get_subject index subject req.user
  let scope := req.GETget "scope"
  let tmpl := env.get_template index "detail-preview.html"
  if !(truthy endpoint || truthy url_path || truthy scope) then
    ({ template := tmpl
       context := ctxSet context "detail_error"
         (CtxVal.previewErr (PreviewException.urlNotFound subject)) }, [])
  else
    let url := previewUrl endpoint url_path
    let effs := [Effect.previewCall req.user url scope env.preview_data_size]
    match env.preview req.user url scope env.preview_data_size with
    | Except.ok dat =>
      ({ template := tmpl
         context := ctxSet context "preview_data" (CtxVal.previewData dat) },
       effs)
    | Except.error pe =>
      ({ template := tmpl
         context := ctxSet context "detail_error"
           (CtxVal.previewErr (PreviewException.svc pe)) }, effs)

/-! ### The `logout` view -/

/-- The default of the `next` parameter of `views.logout`. -/
def logout_default_next : String := "/"

/-- Outcome of `logout`: the redirect target, the session after the
request, and the external calls made. -/
structure LogoutOutcome where
  redirect_to : String
  session : Session
  effects : List Effect
deriving Repr, DecidableEq

/-- The view `views.logout`: revoke tokens and flush the Django session exactly
when the user is authenticated, then redirect to the `'next'` query
parameter when present, else to the `next` argument. -/
def logout (env : Env) (req : Request) (sess : Session) (next : String) :
    LogoutOutcome :=
  let base : LogoutOutcome :=
    if req.user.is_authenticated then
      { redirect_to := ""
        session := []
        effects := [Effect.revokeTokensCall req.user, Effect.djangoLogoutCall] }
    else
      { redirect_to := ""
        session := sess
        effects := [] }
  { base with redirect_to := (req.GETget "next").getD next }

/-- The view `views.logout` called without an explicit `next` argument. -/
def logoutDefault (env : Env) (req : Request) (sess : Session) :
    LogoutOutcome :=
  logout env req sess logout_default_next

/-! ### Effect classifiers -/

def Effect.isHelperTransferCall : Effect → Bool
  | .helperTransferCall _ _ => true
  | _ => false

def Effect.isCheckExistsCall : Effect → Bool
  | .checkExistsCall _ _ _ => true
  | _ => false

def Effect.isPreviewCall : Effect → Bool
  | .previewCall _ _ _ _ => true
  | _ => false

/-! ### Concrete fixtures for witnesses and counterexamples -/

/-- A base environment with trivial oracles; witnesses override fields. -/
def env0 : Env where
  urlparse := fun _ => { scheme := "", netloc := "", path := "", query := "" }
  get_search_query := fun _ _ => none
  get_search_filters := fun _ => []
  post_search := fun _ _ _ _ _ => (none, "RESULTS")
  get_subject := fun _ _ _ => []
  check_exists := fun _ _ _ => Except.ok ()
  helper_page_transfer := fun _ _ _ => Except.ok { task_id := "TASK1" }
  get_helper_page_url := fun u _ _ _ => u ++ "?helper"
  reverse_detail_transfer := fun _ _ => "/detail-transfer/"
  build_absolute_uri := fun _ s => "https://portal" ++ s
  preview := fun _ _ _ _ => Except.ok "DATA"
  preview_data_size := 5
  get_template := fun _ t => t

def anonUser : User := { is_authenticated := false }

def authUser : User := { is_authenticated := true }

def reqAnonGet : Request :=
  { user := anonUser, method := "GET", getParams := [], fullPath := "/p" }

def reqAuthGet : Request :=
  { user := authUser, method := "GET", getParams := [], fullPath := "/p" }

def reqAuthPost : Request :=
  { user := authUser, method := "POST", getParams := [], fullPath := "/p" }

/-- An environment whose search query is `'foo'` and whose search
result carries the error `'bad query'`. -/
def searchErrEnv : Env :=
  { env0 with
      get_search_query := fun _ _ => some "foo"
      post_search := fun _ _ _ _ _ => (some "bad query", "") }

/-- A subject carrying a one-entry remote file manifest. -/
def manifestSubj : Ctx :=
  [("title", CtxVal.subjectData "t"),
   ("remote_file_manifest", CtxVal.manifest
     [{ url := "globus://endpoint:id/share/data/file.txt" }])]

/-- A url parser knowing the manifest URL of `manifestSubj`. -/
def manifestUrlparse (s : String) : ParsedUrl :=
  if s == "globus://endpoint:id/share/data/file.txt" then
    { scheme := "globus", netloc := "endpoint:id",
      path := "/share/data/file.txt", query := "" }
  else
    { scheme := "", netloc := "", path := "", query := "" }

/-- An environment whose subject has a manifest and whose existence
check fails with a non-token `TransferAPIError`. -/
def tapiEnv : Env :=
  { env0 with
      get_subject := fun _ _ _ => manifestSubj
      urlparse := manifestUrlparse
      check_exists := fun _ _ _ =>
        Except.error { code := "EndpointError", message := "boom" } }

/-- An environment whose subject has a manifest and whose existence
check succeeds. -/
def manifestOkEnv : Env :=
  { env0 with
      get_subject := fun _ _ _ => manifestSubj
      urlparse := manifestUrlparse }

/-- An environment whose subject has no `'remote_file_manifest'`. -/
def noManifestEnv : Env :=
  { env0 with
      get_subject := fun _ _ _ => [("title", CtxVal.subjectData "t")] }

/-! ### Dictionary lemmas -/

theorem ctxGet_ctxSet_self (c : Ctx) (k : String) (v : CtxVal) :
    ctxGet (ctxSet c k v) k = some v := by
  induction c with
  | nil => simp [ctxGet, ctxSet]
  | cons p t ih =>
    by_cases hp : p.1 = k
    · simp [ctxGet, ctxSet, hp]
    · simp only [ctxSet, beq_iff_eq, hp, if_false]
      simpa [ctxGet, hp] using ih

theorem ctxGet_ctxSet_ne (c : Ctx) (k k' : String) (v : CtxVal)
    (h : k' ≠ k) : ctxGet (ctxSet c k v) k' = ctxGet c k' := by
  induction c with
  | nil => simp [ctxGet, ctxSet, Ne.symm h]
  | cons p t ih =>
    by_cases hp : p.1 = k
    · simp [ctxGet, ctxSet, hp, h, Ne.symm h]
    · simp only [ctxSet, beq_iff_eq, hp, if_false]
      by_cases hp' : p.1 = k'
      · simp [ctxGet, hp']
      · simpa [ctxGet, hp, hp', Ne.symm hp'] using ih

theorem ctxHasKey_ctxSet_ne (c : Ctx) (k k' : String) (v : CtxVal)
    (h : k' ≠ k) : ctxHasKey (ctxSet c k v) k' = ctxHasKey c k' := by
  induction c with
  | nil => simp [ctxHasKey, ctxSet, Ne.symm h]
  | cons p t ih =>
    by_cases hp : p.1 = k
    · simp [ctxHasKey, ctxSet, hp, Ne.symm h]
    · simp only [ctxSet, beq_iff_eq, hp, if_false]
      simp only [ctxHasKey, List.any_cons] at ih ⊢
      rw [ih]

theorem ctxGet_eq_none_of_not_hasKey (c : Ctx) (k : String)
    (h : ctxHasKey c k = false) : ctxGet c k = none := by
  induction c with
  | nil => simp [ctxGet]
  | cons p t ih =>
    simp only [ctxHasKey, List.any_cons, Bool.or_eq_false_iff] at h
    have h1 : ¬ p.1 = k := by simpa using h.1
    have h2 := ih (by simpa [ctxHasKey] using h.2)
    simpa [ctxGet, h1] using h2

theorem sessGet_sessSet_self (s : Session) (k : String) (v : SessionVal) :
    sessGet (sessSet s k v) k = some v := by
  induction s with
  | nil => simp [sessGet, sessSet]
  | cons p t ih =>
    by_cases hp : p.1 = k
    · simp [sessGet, sessSet, hp]
    · simp only [sessSet, beq_iff_eq, hp, if_false]
      simpa [sessGet, hp] using ih

/-! ### Claim theorems -/

/-- C2: for every request to `detail_transfer` whose user is not
authenticated, no transfer-service operation is invoked (the effect
trace is empty, so no existence check, no transfer task, no helper-page
URL), the rendered context is exactly the subject returned by
`get_subject`, and the page still renders. -/
theorem detail_transfer_unauthenticated_noop (env : Env) (req : Request)
    (index subject : String) (h : req.user.is_authenticated = false) :
    detail_transfer env req index subject =
      (TransferResult.rendered
        { template := env.get_template index "detail-transfer.html"
          context := env.get_subject index subject req.user }, []) := by
  simp [detail_transfer, h]

/-- Witness for C2 at a concrete unauthenticated request. -/
theorem detail_transfer_unauthenticated_noop_witness :
    reqAnonGet.user.is_authenticated = false ∧
    detail_transfer env0 reqAnonGet "idx" "subj" =
      (TransferResult.rendered
        { template := "detail-transfer.html", context := [] }, []) :=
  ⟨rfl, (detail_transfer_unauthenticated_noop env0 reqAnonGet "idx" "subj"
    rfl).trans rfl⟩

/-- C6: for every request to the `search` view whose query (as computed
by `get_search_query` from the request and the saved session) is empty,
no external search call is made (empty effect trace), the session is
left unchanged, and the page is rendered with an empty context. -/
theorem search_empty_query_noop (env : Env) (req : Request)
    (index : String) (sess : Session)
    (h : truthy (env.get_search_query req sess) = false) :
    search env req index sess =
      { rendered := { template := env.get_template index "search.html"
                      context := [] }
        session := sess
        effects := [] } := by
  simp [search, h]

/-- Witness for C6 at a concrete request with no query. -/
theorem search_empty_query_noop_witness :
    truthy (env0.get_search_query reqAnonGet []) = false ∧
    search env0 reqAnonGet "idx" [] =
      { rendered := { template := "search.html", context := [] }
        session := []
        effects := [] } :=
  ⟨rfl, (search_empty_query_noop env0 reqAnonGet "idx" [] rfl).trans rfl⟩

/-- C10: `logout` redirects to the `'next'` query parameter when
present and otherwise to its `next` argument, whose default is `'/'`;
token revocation and the Django session logout happen exactly when the
user is authenticated, and for an unauthenticated user the redirect
happens with no token or session effect. -/
theorem logout_spec (env : Env) (req : Request) (sess : Session)
    (next : String) :
    (logout env req sess next).redirect_to = (req.GETget "next").getD next ∧
    logoutDefault env req sess = logout env req sess "/" ∧
    (logout env req sess next).effects =
      (if req.user.is_authenticated then
        [Effect.revokeTokensCall req.user, Effect.djangoLogoutCall]
      else []) ∧
    (logout env req sess next).session =
      (if req.user.is_authenticated then [] else sess) := by
  refine ⟨?_, rfl, ?_, ?_⟩ <;>
    · by_cases h : req.user.is_authenticated <;> simp [logout, h]

/-- C5: for every `search` request yielding a non-empty query, after the
external search call the session's `'search'` entry is set to exactly
the mapping of the full query string of the requested URL, the parsed
query, the parsed filters and the requested index, overwriting any
previous value. -/
theorem search_session_update (env : Env) (req : Request) (index : String)
    (sess : Session) (q : String)
    (h : env.get_search_query req sess = some q) (hq : q.isEmpty = false) :
    (search env req index sess).session =
      sessSet sess "search" (SessionVal.searchEntry
        { full_query := (env.urlparse req.fullPath).query
          query := q
          filters := env.get_search_filters req
          index := index }) ∧
    sessGet (search env req index sess).session "search" =
      some (SessionVal.searchEntry
        { full_query := (env.urlparse req.fullPath).query
          query := q
          filters := env.get_search_filters req
          index := index }) := by
  have hs : (search env req index sess).session =
      sessSet sess "search" (SessionVal.searchEntry
        { full_query := (env.urlparse req.fullPath).query
          query := q
          filters := env.get_search_filters req
          index := index }) := by
    simp [search, truthy, h, hq]
  exact ⟨hs, hs ▸ sessGet_sessSet_self sess "search" _⟩

/-- Witness for C5: a concrete request whose query is `'foo'` and whose
session already holds a `'search'` entry, which gets overwritten. -/
theorem search_session_update_witness :
    ({ env0 with
        get_search_query := fun _ _ => some "foo" } : Env).get_search_query
      reqAnonGet [("search", SessionVal.other "old")] = some "foo" ∧
    "foo".isEmpty = false ∧
    (search { env0 with get_search_query := fun _ _ => some "foo" }
        reqAnonGet "idx" [("search", SessionVal.other "old")]).session =
      [("search", SessionVal.searchEntry
        { full_query := "", query := "foo", filters := [], index := "idx" })] :=
  ⟨rfl, rfl,
    ((search_session_update
      { env0 with get_search_query := fun _ _ => some "foo" }
      reqAnonGet "idx" [("search", SessionVal.other "old")] "foo"
      rfl rfl).1).trans rfl⟩

/-- C7: for every `search` request whose external search result carries
a truthy `'error'` entry, the view registers that error as a user-facing
error message and still renders the search page normally with the
error-bearing result in the context; the view is total, so no exception
escapes. -/
theorem search_error_registered (env : Env) (req : Request)
    (index : String) (sess : Session) (q e : String)
    (h : env.get_search_query req sess = some q) (hq : q.isEmpty = false)
    (he : (env.post_search index q (env.get_search_filters req) req.user
      (req.GETget "page")).1 = some e) (hne : e.isEmpty = false) :
    (search env req index sess).effects =
      [Effect.postSearchCall index q (env.get_search_filters req) req.user
        (req.GETget "page"),
       Effect.messageError e] ∧
    (search env req index sess).rendered =
      { template := env.get_template index "search.html"
        context := [("search", CtxVal.searchRes (some e)
          (env.post_search index q (env.get_search_filters req) req.user
            (req.GETget "page")).2)] } := by
  constructor <;> simp [search, truthy, h, hq, he, hne]

/-- Witness for C7: a concrete search whose result carries the error
`'bad query'`; the message is registered and the page renders. -/
theorem search_error_registered_witness :
    (searchErrEnv.get_search_query reqAnonGet [] = some "foo" ∧
     "foo".isEmpty = false ∧
     (searchErrEnv.post_search "idx" "foo" [] anonUser none).1 =
       some "bad query" ∧
     "bad query".isEmpty = false) ∧
    (search searchErrEnv reqAnonGet "idx" []).effects =
      [Effect.postSearchCall "idx" "foo" [] anonUser none,
       Effect.messageError "bad query"] ∧
    (search searchErrEnv reqAnonGet "idx" []).rendered =
      { template := "search.html"
        context := [("search", CtxVal.searchRes (some "bad query") "")] } :=
  ⟨⟨rfl, rfl, rfl, rfl⟩,
    search_error_registered searchErrEnv reqAnonGet "idx" [] "foo"
      "bad query" rfl rfl rfl rfl⟩

/-- C1 counterexample: `detail_preview` has no authentication guard.
At a concrete unauthenticated request with an endpoint argument, the
handler does call the preview operation and does place `'preview_data'`
in the rendered context, refuting the claim as stated. -/
theorem detail_preview_not_auth_gated_cex :
    reqAnonGet.user.is_authenticated = false ∧
    (detail_preview env0 reqAnonGet "idx" "subj"
      (some "ep.example.org") none).2 =
      [Effect.previewCall anonUser "https://ep.example.org/None" none 5] ∧
    ctxGet (detail_preview env0 reqAnonGet "idx" "subj"
      (some "ep.example.org") none).1.context "preview_data" =
      some (CtxVal.previewData "DATA") :=
  ⟨rfl, rfl, rfl⟩

/-- C1 amended: `detail_preview` is not authentication-gated.  For every
request — authenticated or not — providing at least one truthy value
among the endpoint argument, the url-path argument and the `'scope'`
query parameter, the handler calls the preview operation exactly once,
passing the request's user through, and places `'preview_data'` in the
context whenever that call succeeds. -/
theorem detail_preview_calls_preview_regardless_of_auth (env : Env)
    (req : Request) (index subject : String)
    (endpoint url_path : Option String)
    (h : (truthy endpoint || truthy url_path ||
      truthy (req.GETget "scope")) = true) :
    (detail_preview env req index subject endpoint url_path).2 =
      [Effect.previewCall req.user (previewUrl endpoint url_path)
        (req.GETget "scope") env.preview_data_size] ∧
    (∀ dat, env.preview req.user (previewUrl endpoint url_path)
        (req.GETget "scope") env.preview_data_size = Except.ok dat →
      ctxGet (detail_preview env req index subject endpoint
          url_path).1.context "preview_data" =
        some (CtxVal.previewData dat)) := by
  constructor
  · simp only [detail_preview, h, Bool.not_true, Bool.false_eq_true,
      if_false]
    split <;> rfl
  · intro dat hdat
    simp only [detail_preview, h, Bool.not_true, Bool.false_eq_true,
      if_false, hdat]
    exact ctxGet_ctxSet_self _ _ _

/-- Witness for the amended C1 at a concrete unauthenticated request
with only an endpoint argument. -/
theorem detail_preview_calls_preview_regardless_of_auth_witness :
    (truthy (some "ep.example.org") || truthy (none : Option String) ||
      truthy (reqAnonGet.GETget "scope")) = true ∧
    ((detail_preview env0 reqAnonGet "idx" "subj"
        (some "ep.example.org") none).2 =
      [Effect.previewCall anonUser "https://ep.example.org/None" none 5] ∧
    (∀ dat, env0.preview anonUser "https://ep.example.org/None" none 5 =
        Except.ok dat →
      ctxGet (detail_preview env0 reqAnonGet "idx" "subj"
          (some "ep.example.org") none).1.context "preview_data" =
        some (CtxVal.previewData dat))) :=
  ⟨rfl, detail_preview_calls_preview_regardless_of_auth env0 reqAnonGet
    "idx" "subj" (some "ep.example.org") none rfl⟩

/-- C4: provided the subject metadata does not itself carry a
`'detail_error'` key, `detail_preview` reports a preview-URL-not-found
error exactly when the endpoint argument, the url-path argument and the
`'scope'` query parameter are all absent or empty; every
`PreviewException` raised by the preview helper is caught and stored
under `'detail_error'`, the context gains no `'preview_data'` entry in
that case, and the page is rendered in every case. -/
theorem detail_preview_error_handling (env : Env) (req : Request)
    (index subject : String) (endpoint url_path : Option String)
    (hde : ctxHasKey (env.get_subject index subject req.user)
      "detail_error" = false) :
    ((detail_preview env req index subject endpoint url_path).1.template =
      env.get_template index "detail-preview.html") ∧
    (ctxGet (detail_preview env req index subject endpoint
        url_path).1.context "detail_error" =
        some (CtxVal.previewErr (PreviewException.urlNotFound subject)) ↔
      (truthy endpoint = false ∧ truthy url_path = false ∧
        truthy (req.GETget "scope") = false)) ∧
    (∀ pe, env.preview req.user (previewUrl endpoint url_path)
        (req.GETget "scope") env.preview_data_size = Except.error pe →
      (truthy endpoint || truthy url_path ||
        truthy (req.GETget "scope")) = true →
      (detail_preview env req index subject endpoint url_path).1.context =
        ctxSet (env.get_subject index subject req.user) "detail_error"
          (CtxVal.previewErr (PreviewException.svc pe)) ∧
      ctxHasKey (detail_preview env req index subject endpoint
          url_path).1.context "preview_data" =
        ctxHasKey (env.get_subject index subject req.user)
          "preview_data") := by
  by_cases hcond : (truthy endpoint || truthy url_path ||
      truthy (req.GETget "scope")) = true
  · refine ⟨?_, ?_, ?_⟩
    · simp only [detail_preview, hcond, Bool.not_true, Bool.false_eq_true,
        if_false]
      split <;> rfl
    · cases hprev : env.preview req.user (previewUrl endpoint url_path)
        (req.GETget "scope") env.preview_data_size with
      | ok dat =>
        simp only [detail_preview, hcond, Bool.not_true,
          Bool.false_eq_true, if_false, hprev]
        rw [ctxGet_ctxSet_ne _ _ _ _ (by decide),
          ctxGet_eq_none_of_not_hasKey _ _ hde]
        constructor
        · intro hfalse; exact absurd hfalse (by simp)
        · intro hall
          exact absurd hcond (by simp [hall.1, hall.2.1, hall.2.2])
      | error pe =>
        simp only [detail_preview, hcond, Bool.not_true,
          Bool.false_eq_true, if_false, hprev]
        rw [ctxGet_ctxSet_self]
        constructor
        · intro hfalse
          exact absurd hfalse (by simp)
        · intro hall
          exact absurd hcond (by simp [hall.1, hall.2.1, hall.2.2])
    · intro pe hpe _
      simp only [detail_preview, hcond, Bool.not_true, Bool.false_eq_true,
        if_false, hpe]
      exact ⟨trivial, ctxHasKey_ctxSet_ne _ _ _ _ (by decide)⟩
  · have hcond' : (truthy endpoint || truthy url_path ||
        truthy (req.GETget "scope")) = false := by
      simpa using hcond
    have h3 : truthy endpoint = false ∧ truthy url_path = false ∧
        truthy (req.GETget "scope") = false := by
      simpa [Bool.or_eq_false_iff, and_assoc] using hcond'
    refine ⟨?_, ?_, ?_⟩
    · simp only [detail_preview, hcond', Bool.not_false, if_true]
    · simp only [detail_preview, hcond', Bool.not_false, if_true]
      rw [ctxGet_ctxSet_self]
      simp [h3.1, h3.2.1, h3.2.2]
    · intro pe _ htru
      exact absurd htru (by simp [hcond'])

/-- Witness for C4 at a concrete request with no endpoint, no url path
and no scope: the URL-not-found error is reported. -/
theorem detail_preview_error_handling_witness :
    ctxHasKey (env0.get_subject "idx" "subj" anonUser)
      "detail_error" = false ∧
    (((detail_preview env0 reqAnonGet "idx" "subj" none none).1.template =
      "detail-preview.html") ∧
    (ctxGet (detail_preview env0 reqAnonGet "idx" "subj"
        none none).1.context "detail_error" =
        some (CtxVal.previewErr (PreviewException.urlNotFound "subj")) ↔
      (truthy (none : Option String) = false ∧
        truthy (none : Option String) = false ∧
        truthy (reqAnonGet.GETget "scope") = false)) ∧
    (∀ pe, env0.preview anonUser (previewUrl none none)
        (reqAnonGet.GETget "scope") 5 = Except.error pe →
      (truthy (none : Option String) || truthy (none : Option String) ||
        truthy (reqAnonGet.GETget "scope")) = true →
      (detail_preview env0 reqAnonGet "idx" "subj" none none).1.context =
        ctxSet (env0.get_subject "idx" "subj" anonUser) "detail_error"
          (CtxVal.previewErr (PreviewException.svc pe)) ∧
      ctxHasKey (detail_preview env0 reqAnonGet "idx" "subj"
          none none).1.context "preview_data" =
        ctxHasKey (env0.get_subject "idx" "subj" anonUser)
          "preview_data")) :=
  ⟨rfl, detail_preview_error_handling env0 reqAnonGet "idx" "subj"
    none none rfl⟩

/-- The `except TransferAPIError` clause: `handleTapi` re-raises
`ExpiredGlobusToken` exactly for an inactive-token authentication
failure, and otherwise renders with the error stored under
`'detail_error'`. -/
theorem handleTapi_spec (env : Env) (index : String) (c : Ctx)
    (t : TransferAPIError) (effs : List Effect) :
    ((handleTapi env index c t effs).1 = TransferResult.expiredToken ↔
      (t.code = "AuthenticationFailed" ∧
        t.message = "Token is not active")) ∧
    (¬ (t.code = "AuthenticationFailed" ∧
        t.message = "Token is not active") →
      (handleTapi env index c t effs).1 = TransferResult.rendered
        { template := env.get_template index "detail-transfer.html"
          context := ctxSet c "detail_error" (CtxVal.transferErr t) }) := by
  unfold handleTapi
  by_cases h1 : t.code = "AuthenticationFailed"
  · by_cases h2 : t.message = "Token is not active"
    · simp [h1, h2]
    · simp [h1, h2]
  · simp [h1]

/-- Helper `handleTapi` passes the effect trace through unchanged. -/
theorem handleTapi_effects (env : Env) (index : String) (c : Ctx)
    (t : TransferAPIError) (effs : List Effect) :
    (handleTapi env index c t effs).2 = effs := by
  unfold handleTapi
  split <;> rfl

/-- Helper `transferFinish` passes the effect trace through unchanged. -/
theorem transferFinish_effects (env : Env) (req : Request)
    (index subject : String) (c : Ctx) (effs : List Effect) :
    (transferFinish env req index subject c effs).2 = effs := rfl

/-- When `handleTapi` renders, the context is the input context with
only `'detail_error'` set, so every other key keeps its presence. -/
theorem handleTapi_preserves_key (env : Env) (index : String) (c : Ctx)
    (t : TransferAPIError) (effs : List Effect) (k : String)
    (hk : k ≠ "detail_error") :
    ∀ r, (handleTapi env index c t effs).1 = TransferResult.rendered r →
      ctxHasKey r.context k = ctxHasKey c k := by
  intro r hr
  unfold handleTapi at hr
  split at hr
  · exact absurd hr (by simp)
  · simp only [TransferResult.rendered.injEq] at hr
    rw [← hr]
    exact ctxHasKey_ctxSet_ne c "detail_error" k (CtxVal.transferErr t) hk

/-- C3: for every authenticated `detail_transfer` request with a
well-formed non-empty manifest on which the transfer service (the
existence check, or on POST the helper-page transfer) raises a
`TransferAPIError`, the error is re-raised as `ExpiredGlobusToken`
exactly when its code is `'AuthenticationFailed'` and its message is
`'Token is not active'`; every other `TransferAPIError` is caught,
stored in the context under `'detail_error'`, and the page is still
rendered. -/
theorem detail_transfer_tapi_handling (env : Env) (req : Request)
    (index subject : String) (e0 : ManifestEntry)
    (rest : List ManifestEntry) (e : TransferAPIError)
    (hauth : req.user.is_authenticated = true)
    (hm : ctxGet (env.get_subject index subject req.user)
      "remote_file_manifest" = some (CtxVal.manifest (e0 :: rest)))
    (herr :
      env.check_exists req.user
        (removeColons (env.urlparse e0.url).netloc)
        (env.urlparse e0.url).path = Except.error e ∨
      (env.check_exists req.user
        (removeColons (env.urlparse e0.url).netloc)
        (env.urlparse e0.url).path = Except.ok () ∧
       req.method = "POST" ∧
       env.helper_page_transfer req
         (removeColons (env.urlparse e0.url).netloc)
         (env.urlparse e0.url).path = Except.error e)) :
    ((detail_transfer env req index subject).1 =
        TransferResult.expiredToken ↔
      (e.code = "AuthenticationFailed" ∧
        e.message = "Token is not active")) ∧
    (¬ (e.code = "AuthenticationFailed" ∧
        e.message = "Token is not active") →
      (detail_transfer env req index subject).1 = TransferResult.rendered
        { template := env.get_template index "detail-transfer.html"
          context := ctxSet (env.get_subject index subject req.user)
            "detail_error" (CtxVal.transferErr e) }) := by
  obtain ⟨effs, heq⟩ : ∃ effs, detail_transfer env req index subject =
      handleTapi env index (env.get_subject index subject req.user)
        e effs := by
    rcases herr with hc | ⟨hok, hpost, ht⟩
    · refine ⟨[Effect.checkExistsCall req.user
        (removeColons (env.urlparse e0.url).netloc)
        (env.urlparse e0.url).path], ?_⟩
      simp only [detail_transfer, hauth, if_true, hm, hc]
    · refine ⟨[Effect.checkExistsCall req.user
        (removeColons (env.urlparse e0.url).netloc)
        (env.urlparse e0.url).path,
        Effect.helperTransferCall
          (removeColons (env.urlparse e0.url).netloc)
          (env.urlparse e0.url).path], ?_⟩
      simp only [detail_transfer, hauth, if_true, hm, hok, hpost, ht]
      simp
  rw [heq]
  exact handleTapi_spec env index _ e effs

/-- Witness for C3: a concrete authenticated request whose existence
check raises a `TransferAPIError` with code `'EndpointError'`; the
error is stored and the page renders. -/
theorem detail_transfer_tapi_handling_witness :
    (reqAuthGet.user.is_authenticated = true ∧
     ctxGet (tapiEnv.get_subject "idx" "subj" reqAuthGet.user)
       "remote_file_manifest" = some (CtxVal.manifest
         [{ url := "globus://endpoint:id/share/data/file.txt" }]) ∧
     tapiEnv.check_exists reqAuthGet.user
       (removeColons (tapiEnv.urlparse
         "globus://endpoint:id/share/data/file.txt").netloc)
       (tapiEnv.urlparse
         "globus://endpoint:id/share/data/file.txt").path =
       Except.error { code := "EndpointError", message := "boom" }) ∧
    (((detail_transfer tapiEnv reqAuthGet "idx" "subj").1 =
        TransferResult.expiredToken ↔
      (("EndpointError" : String) = "AuthenticationFailed" ∧
        ("boom" : String) = "Token is not active")) ∧
    (¬ (("EndpointError" : String) = "AuthenticationFailed" ∧
        ("boom" : String) = "Token is not active") →
      (detail_transfer tapiEnv reqAuthGet "idx" "subj").1 =
        TransferResult.rendered
          { template := tapiEnv.get_template "idx" "detail-transfer.html"
            context := ctxSet
              (tapiEnv.get_subject "idx" "subj" reqAuthGet.user)
              "detail_error" (CtxVal.transferErr
                { code := "EndpointError", message := "boom" }) })) :=
  ⟨⟨rfl, rfl, rfl⟩,
    detail_transfer_tapi_handling tapiEnv reqAuthGet "idx" "subj"
      { url := "globus://endpoint:id/share/data/file.txt" } []
      { code := "EndpointError", message := "boom" } rfl rfl (Or.inl rfl)⟩

/-- C9: for every authenticated `detail_transfer` request whose subject
has a non-empty `'remote_file_manifest'`, the endpoint and path handed
to the existence check and to the transfer call are derived solely from
the first manifest entry's `'url'`: the endpoint is that URL's netloc
with every `':'` removed and the path is that URL's path. -/
theorem detail_transfer_endpoint_path_from_manifest (env : Env)
    (req : Request) (index subject : String) (e0 : ManifestEntry)
    (rest : List ManifestEntry)
    (hauth : req.user.is_authenticated = true)
    (hm : ctxGet (env.get_subject index subject req.user)
      "remote_file_manifest" = some (CtxVal.manifest (e0 :: rest))) :
    (∀ u ep path, Effect.checkExistsCall u ep path ∈
        (detail_transfer env req index subject).2 →
      ep = removeColons (env.urlparse e0.url).netloc ∧
      path = (env.urlparse e0.url).path) ∧
    (∀ ep path, Effect.helperTransferCall ep path ∈
        (detail_transfer env req index subject).2 →
      ep = removeColons (env.urlparse e0.url).netloc ∧
      path = (env.urlparse e0.url).path) := by
  have heff : ∀ ev, ev ∈ (detail_transfer env req index subject).2 →
      ev = Effect.checkExistsCall req.user
        (removeColons (env.urlparse e0.url).netloc)
        (env.urlparse e0.url).path ∨
      ev = Effect.helperTransferCall
        (removeColons (env.urlparse e0.url).netloc)
        (env.urlparse e0.url).path := by
    intro ev hev
    simp only [detail_transfer, hauth, if_true, hm] at hev
    rcases hce : env.check_exists req.user
        (removeColons (env.urlparse e0.url).netloc)
        (env.urlparse e0.url).path with t | u
    · rw [hce, handleTapi_effects] at hev
      simp at hev
      exact Or.inl hev
    · rw [hce] at hev
      by_cases hp : (req.method == "POST") = true
      · simp only [hp, if_true] at hev
        rcases hht : env.helper_page_transfer req
            (removeColons (env.urlparse e0.url).netloc)
            (env.urlparse e0.url).path with t | task
        · rw [hht, handleTapi_effects] at hev
          simpa using hev
        · rw [hht, transferFinish_effects] at hev
          simpa using hev
      · simp only [Bool.not_eq_true] at hp
        rw [if_neg (by simp [hp]), transferFinish_effects] at hev
        simp at hev
        exact Or.inl hev
  constructor
  · intro u ep path hmem
    rcases heff _ hmem with h | h
    · simp only [Effect.checkExistsCall.injEq] at h
      exact ⟨h.2.1, h.2.2⟩
    · exact absurd h (by simp)
  · intro ep path hmem
    rcases heff _ hmem with h | h
    · exact absurd h (by simp)
    · simp only [Effect.helperTransferCall.injEq] at h
      exact ⟨h.1, h.2⟩

/-- Witness for C9: a concrete authenticated POST request with a
one-entry manifest; both conclusions at that instance. -/
theorem detail_transfer_endpoint_path_from_manifest_witness :
    (reqAuthPost.user.is_authenticated = true ∧
     ctxGet (manifestOkEnv.get_subject "idx" "subj" reqAuthPost.user)
       "remote_file_manifest" = some (CtxVal.manifest
         [{ url := "globus://endpoint:id/share/data/file.txt" }])) ∧
    ((∀ u ep path, Effect.checkExistsCall u ep path ∈
        (detail_transfer manifestOkEnv reqAuthPost "idx" "subj").2 →
      ep = removeColons (manifestOkEnv.urlparse
        "globus://endpoint:id/share/data/file.txt").netloc ∧
      path = (manifestOkEnv.urlparse
        "globus://endpoint:id/share/data/file.txt").path) ∧
    (∀ ep path, Effect.helperTransferCall ep path ∈
        (detail_transfer manifestOkEnv reqAuthPost "idx" "subj").2 →
      ep = removeColons (manifestOkEnv.urlparse
        "globus://endpoint:id/share/data/file.txt").netloc ∧
      path = (manifestOkEnv.urlparse
        "globus://endpoint:id/share/data/file.txt").path)) :=
  ⟨⟨rfl, rfl⟩,
    detail_transfer_endpoint_path_from_manifest manifestOkEnv reqAuthPost
      "idx" "subj" { url := "globus://endpoint:id/share/data/file.txt" }
      [] rfl rfl⟩

/-- C8 counterexample: on a concrete authenticated GET request whose
subject has no `'remote_file_manifest'`, the `ValueError` short-circuits
the try block: the effect trace is empty — so the existence check does
not run — and no `'helper_page_link'` is set, refuting the claim's
universal "the existence check still runs and `'helper_page_link'` is
still set". -/
theorem detail_transfer_get_missing_manifest_cex :
    reqAuthGet.user.is_authenticated = true ∧
    reqAuthGet.method = "GET" ∧
    detail_transfer noManifestEnv reqAuthGet "idx" "subj" =
      (TransferResult.rendered
        { template := "detail-transfer.html"
          context := [("title", CtxVal.subjectData "t")] }, []) ∧
    ctxHasKey [("title", CtxVal.subjectData "t")] "helper_page_link" =
      false :=
  ⟨rfl, rfl, rfl, rfl⟩

/-- C8 amended: for every authenticated GET request to
`detail_transfer`, `helper_page_transfer` is never called and the
handler never adds `'transfer_link'` to the context; when the subject's
`'remote_file_manifest'` is a non-empty list, the existence check runs,
and when it succeeds `'helper_page_link'` is set in the rendered
context. -/
theorem detail_transfer_get_no_transfer (env : Env) (req : Request)
    (index subject : String)
    (hauth : req.user.is_authenticated = true)
    (hget : req.method = "GET") :
    ((detail_transfer env req index subject).2.any
      Effect.isHelperTransferCall) = false ∧
    (∀ r, (detail_transfer env req index subject).1 =
        TransferResult.rendered r →
      ctxHasKey r.context "transfer_link" =
        ctxHasKey (env.get_subject index subject req.user)
          "transfer_link") ∧
    (∀ e0 rest, ctxGet (env.get_subject index subject req.user)
        "remote_file_manifest" = some (CtxVal.manifest (e0 :: rest)) →
      Effect.checkExistsCall req.user
          (removeColons (env.urlparse e0.url).netloc)
          (env.urlparse e0.url).path ∈
        (detail_transfer env req index subject).2 ∧
      (env.check_exists req.user
          (removeColons (env.urlparse e0.url).netloc)
          (env.urlparse e0.url).path = Except.ok () →
        ∃ r, (detail_transfer env req index subject).1 =
            TransferResult.rendered r ∧
          ctxGet r.context "helper_page_link" =
            some (CtxVal.link (env.get_helper_page_url
              (env.build_absolute_uri req
                (env.reverse_detail_transfer index subject))
              (env.build_absolute_uri req
                (env.reverse_detail_transfer index subject)) 1 0)))) := by
  have hpost : (req.method == "POST") = false := by simp [hget]
  refine ⟨?_, ?_, ?_⟩
  · rcases hmv : ctxGet (env.get_subject index subject req.user)
        "remote_file_manifest" with _ | v
    · simp [detail_transfer, hauth, hmv]
    · cases v with
      | manifest m =>
        cases m with
        | nil => simp [detail_transfer, hauth, hmv]
        | cons f0 fs =>
          rcases hce : env.check_exists req.user
              (removeColons (env.urlparse f0.url).netloc)
              (env.urlparse f0.url).path with t | u
          · simp [detail_transfer, hauth, hmv, hce, handleTapi_effects,
              Effect.isHelperTransferCall]
          · simp [detail_transfer, hauth, hmv, hce, hpost,
              transferFinish_effects, Effect.isHelperTransferCall]
      | subjectData s =>
        simp only [detail_transfer, hauth, if_true, hmv]
        split <;> rfl
      | searchRes a b =>
        simp only [detail_transfer, hauth, if_true, hmv]
        split <;> rfl
      | transferErr t =>
        simp only [detail_transfer, hauth, if_true, hmv]
        split <;> rfl
      | previewErr p =>
        simp only [detail_transfer, hauth, if_true, hmv]
        split <;> rfl
      | previewData d =>
        simp only [detail_transfer, hauth, if_true, hmv]
        split <;> rfl
      | link u =>
        simp only [detail_transfer, hauth, if_true, hmv]
        split <;> rfl
  · intro r hr
    rcases hmv : ctxGet (env.get_subject index subject req.user)
        "remote_file_manifest" with _ | v
    · simp only [detail_transfer, hauth, if_true, hmv,
        TransferResult.rendered.injEq] at hr
      rw [← hr]
    · cases v with
      | manifest m =>
        cases m with
        | nil =>
          simp only [detail_transfer, hauth, if_true, hmv,
            TransferResult.rendered.injEq] at hr
          rw [← hr]
        | cons f0 fs =>
          rcases hce : env.check_exists req.user
              (removeColons (env.urlparse f0.url).netloc)
              (env.urlparse f0.url).path with t | u
          · simp only [detail_transfer, hauth, if_true, hmv, hce] at hr
            exact handleTapi_preserves_key env index _ t _
              "transfer_link" (by decide) r hr
          · simp only [detail_transfer, hauth, if_true, hmv, hce, hpost,
              Bool.false_eq_true, if_false, transferFinish,
              TransferResult.rendered.injEq] at hr
            rw [← hr]
            exact ctxHasKey_ctxSet_ne _ _ _ _ (by decide)
      | subjectData s =>
        simp only [detail_transfer, hauth, if_true, hmv] at hr
        split at hr
        · exact absurd hr (by simp)
        · simp only [TransferResult.rendered.injEq] at hr
          rw [← hr]
      | searchRes a b =>
        simp only [detail_transfer, hauth, if_true, hmv] at hr
        split at hr
        · exact absurd hr (by simp)
        · simp only [TransferResult.rendered.injEq] at hr
          rw [← hr]
      | transferErr t =>
        simp only [detail_transfer, hauth, if_true, hmv] at hr
        split at hr
        · exact absurd hr (by simp)
        · simp only [TransferResult.rendered.injEq] at hr
          rw [← hr]
      | previewErr p =>
        simp only [detail_transfer, hauth, if_true, hmv] at hr
        split at hr
        · exact absurd hr (by simp)
        · simp only [TransferResult.rendered.injEq] at hr
          rw [← hr]
      | previewData d =>
        simp only [detail_transfer, hauth, if_true, hmv] at hr
        split at hr
        · exact absurd hr (by simp)
        · simp only [TransferResult.rendered.injEq] at hr
          rw [← hr]
      | link u =>
        simp only [detail_transfer, hauth, if_true, hmv] at hr
        split at hr
        · exact absurd hr (by simp)
        · simp only [TransferResult.rendered.injEq] at hr
          rw [← hr]
  · intro e0 rest hm
    rcases hce : env.check_exists req.user
        (removeColons (env.urlparse e0.url).netloc)
        (env.urlparse e0.url).path with t | u
    · constructor
      · simp [detail_transfer, hauth, hm, hce, handleTapi_effects]
      · intro hok
        exact absurd hok (by simp)
    · constructor
      · simp [detail_transfer, hauth, hm, hce, hpost,
          transferFinish_effects]
      · intro _
        have heq : (detail_transfer env req index subject).1 =
            TransferResult.rendered
              { template := env.get_template index "detail-transfer.html"
                context := ctxSet (env.get_subject index subject req.user)
                  "helper_page_link" (CtxVal.link (env.get_helper_page_url
                    (env.build_absolute_uri req
                      (env.reverse_detail_transfer index subject))
                    (env.build_absolute_uri req
                      (env.reverse_detail_transfer index subject)) 1 0)) }
            := by
          simp only [detail_transfer, hauth, if_true, hm, hce, hpost,
            Bool.false_eq_true, if_false, transferFinish]
        exact ⟨_, heq, ctxGet_ctxSet_self _ _ _⟩

/-- Witness for the amended C8 at a concrete authenticated GET request
whose manifest exists and whose existence check succeeds. -/
theorem detail_transfer_get_no_transfer_witness :
    (reqAuthGet.user.is_authenticated = true ∧
     reqAuthGet.method = "GET") ∧
    (((detail_transfer manifestOkEnv reqAuthGet "idx" "subj").2.any
      Effect.isHelperTransferCall) = false ∧
    (∀ r, (detail_transfer manifestOkEnv reqAuthGet "idx" "subj").1 =
        TransferResult.rendered r →
      ctxHasKey r.context "transfer_link" =
        ctxHasKey (manifestOkEnv.get_subject "idx" "subj" reqAuthGet.user)
          "transfer_link") ∧
    (∀ e0 rest, ctxGet (manifestOkEnv.get_subject "idx" "subj"
        reqAuthGet.user) "remote_file_manifest" =
        some (CtxVal.manifest (e0 :: rest)) →
      Effect.checkExistsCall reqAuthGet.user
          (removeColons (manifestOkEnv.urlparse e0.url).netloc)
          (manifestOkEnv.urlparse e0.url).path ∈
        (detail_transfer manifestOkEnv reqAuthGet "idx" "subj").2 ∧
      (manifestOkEnv.check_exists reqAuthGet.user
          (removeColons (manifestOkEnv.urlparse e0.url).netloc)
          (manifestOkEnv.urlparse e0.url).path = Except.ok () →
        ∃ r, (detail_transfer manifestOkEnv reqAuthGet "idx" "subj").1 =
            TransferResult.rendered r ∧
          ctxGet r.context "helper_page_link" =
            some (CtxVal.link (manifestOkEnv.get_helper_page_url
              (manifestOkEnv.build_absolute_uri reqAuthGet
                (manifestOkEnv.reverse_detail_transfer "idx" "subj"))
              (manifestOkEnv.build_absolute_uri reqAuthGet
                (manifestOkEnv.reverse_detail_transfer "idx" "subj"))
              1 0))))) :=
  ⟨⟨rfl, rfl⟩,
    detail_transfer_get_no_transfer manifestOkEnv reqAuthGet "idx" "subj"
      rfl rfl⟩

end GPF
